import Mathlib

/-!
Shallow embedding of the `crypt_dev` Ansible module (library/crypt_dev.py):
a LUKS container lifecycle reconciler.  The command-level layer models the
`CryptHandler` methods as functions of the external tool's `CommandResult`
(exit code, stdout, stderr); the system-level layer models the reconciliation
predicates (`Conditions`) and the orchestrator (`run_module`) over an abstract
observable system state (LUKS headers, open device-name mappings, UUIDs).
-/

namespace CryptDev

/-- The triple returned by `module.run_command`: exit status, stdout, stderr. -/
structure CommandResult where
  code : Int
  stdout : String
  stderr : String
deriving DecidableEq

/-- Search model of the regexes `\s*crypt\s+([^\s]*)\s*` and
`\s*device:\s+([^\s]*)\s*`: scan for the first occurrence of the literal
followed by at least one whitespace character, then capture the maximal
run of non-whitespace characters after the whitespace. -/
def searchLitWsCapture (lit : List Char) : List Char → Option (List Char)
  | [] => none
  | c :: rest =>
    if (c :: rest).take lit.length = lit then
      let after := (c :: rest).drop lit.length
      let ws := after.takeWhile (fun ch => ch.isWhitespace)
      if ws.isEmpty then searchLitWsCapture lit rest
      else some ((after.dropWhile (fun ch => ch.isWhitespace)).takeWhile
                   (fun ch => !ch.isWhitespace))
    else searchLitWsCapture lit rest

/-- Model of `LUKS_NAME_REGEX.search`: extract a name from a line `crypt <name>`. -/
def luksNameSearch (s : String) : Option String :=
  (searchLitWsCapture "crypt".data s.data).map (fun l => String.mk l)

/-- Model of `LUKS_DEVICE_REGEX.search`: extract a path from a line `device: <path>`. -/
def luksDeviceSearch (s : String) : Option String :=
  (searchLitWsCapture "device:".data s.data).map (fun l => String.mk l)

namespace CryptHandler

/-- Model of `CryptHandler.run_luks_create`: raises ValueError iff the tool exits
non-zero; the message interpolates the device and the captured stderr.
Error messages are modelled as the list of interpolated segments. -/
def run_luks_create (device : String) (result : CommandResult) :
    Except (List String) Unit :=
  if result.code ≠ 0 then
    .error ["Error while creating LUKS on ", device, ": ", result.stderr]
  else .ok ()

/-- Model of `CryptHandler.run_luks_open`. -/
def run_luks_open (device : String) (result : CommandResult) :
    Except (List String) Unit :=
  if result.code ≠ 0 then
    .error ["Error while opening LUKS container on ", device, ": ",
            result.stderr]
  else .ok ()

/-- Model of `CryptHandler.run_luks_close`: note the source formats only the name
into the message, not the stderr. -/
def run_luks_close (name : String) (result : CommandResult) :
    Except (List String) Unit :=
  if result.code ≠ 0 then
    .error ["Error while closing LUKS container ", name]
  else .ok ()

/-- Model of `CryptHandler.run_luks_remove`: given the result of the
name-by-device query (`nameRes`), close first when a name resolved, then
wipe the signatures with `wipefs`. -/
def run_luks_remove (device : String) (nameRes : Option String)
    (closeRes wipeRes : CommandResult) : Except (List String) Unit :=
  match nameRes with
  | some n =>
    match run_luks_close n closeRes with
    | .error e => .error e
    | .ok _ =>
      if wipeRes.code ≠ 0 then
        .error ["Error while wiping luks container ", device, ": ",
                wipeRes.stderr]
      else .ok ()
  | none =>
    if wipeRes.code ≠ 0 then
      .error ["Error while wiping luks container ", device, ": ",
              wipeRes.stderr]
    else .ok ()

/-- Model of `CryptHandler.run_luks_add_key`. -/
def run_luks_add_key (device : String) (result : CommandResult) :
    Except (List String) Unit :=
  if result.code ≠ 0 then
    .error ["Error while adding new LUKS key to ", device, ": ",
            result.stderr]
  else .ok ()

/-- Model of `CryptHandler.run_luks_remove_key`. -/
def run_luks_remove_key (device : String) (result : CommandResult) :
    Except (List String) Unit :=
  if result.code ≠ 0 then
    .error ["Error while removing LUKS key from ", device, ": ",
            result.stderr]
  else .ok ()

/-- Model of `CryptHandler.is_luks`: a boolean, true iff the tool exited 0. -/
def is_luks (result : CommandResult) : Bool :=
  result.code == 0

/-- Model of `CryptHandler.get_container_name_by_device`: raises iff lsblk exits
non-zero; otherwise returns the regex capture, or the absence marker
`none` when the output holds no `crypt <name>` match. -/
def get_container_name_by_device (device : String) (result : CommandResult) :
    Except (List String) (Option String) :=
  if result.code ≠ 0 then
    .error ["Error while obtaining LUKS name for ", device, ": ",
            result.stderr]
  else .ok (luksNameSearch result.stdout)

/-- Model of `CryptHandler.get_container_device_by_name`: a non-zero exit of
`cryptsetup status` returns the absence marker `none`; on exit 0 the
source calls `m.group(1)` unguarded, so a zero-exit output with no
`device: <path>` match raises AttributeError (modelled as `.error`). -/
def get_container_device_by_name (name : String) (result : CommandResult) :
    Except (List String) (Option String) :=
  if result.code ≠ 0 then .ok none
  else
    match luksDeviceSearch result.stdout with
    | some d => .ok (some d)
    | none => .error ["AttributeError"]

end CryptHandler

/-!
System-level model.  The reconciliation predicates and the orchestrator
issue live queries; we model the observable system as the set of devices
with a LUKS header, the list of currently open (device, container-name)
mappings, and the device UUIDs reported by lsblk.  Imperative actions are
modelled on their success path (the claims about tool failure are settled
at the command level above) as transformations of this state, with a trace
of the external actions performed.
-/

/-- The Declared Intent: the seven module parameters.  `open` is a Lean
keyword, so the boolean `open` parameter (type bool, default false) is
named `openFlag`. -/
structure Params where
  device : Option String
  state : Option String
  openFlag : Bool
  name : Option String
  key : Option String
  new_key : Option String
  remove_key : Option String
deriving DecidableEq

/-- Observable system state. -/
structure SysState where
  luks : List String
  openL : List (String × String)
  uuids : List (String × String)
deriving DecidableEq

/-- Model of `cryptsetup isLuks` at the state level. -/
def sysIsLuks (s : SysState) (d : String) : Bool :=
  s.luks.contains d

/-- Model of `get_container_name_by_device` at the state level: the name of the
container currently open on device `d`, if any. -/
def nameByDevice (s : SysState) (d : String) : Option String :=
  (s.openL.find? (fun x => x.1 == d)).map (fun x => x.2)

/-- Model of `get_container_device_by_name` at the state level. -/
def deviceByName (s : SysState) (n : String) : Option String :=
  (s.openL.find? (fun x => x.2 == n)).map (fun x => x.1)

/-- Model of `generate_luks_name`: `"luks-" + <device UUID>`; `none` models the
ValueError raised when the UUID cannot be obtained. -/
def generate_luks_name (s : SysState) (d : String) : Option String :=
  (s.uuids.find? (fun x => x.1 == d)).map (fun x => "luks-" ++ x.2)

/-- Model of `cryptsetup luksFormat`: the device gains a LUKS header. -/
def createEffect (s : SysState) (d : String) : SysState :=
  { s with luks := d :: s.luks }

/-- Model of `cryptsetup open`: the mapping (device, name) becomes live. -/
def openEffect (s : SysState) (d n : String) : SysState :=
  { s with openL := (d, n) :: s.openL }

/-- Model of `cryptsetup close`: the mapping of name `n` is removed. -/
def closeEffect (s : SysState) (n : String) : SysState :=
  { s with openL := s.openL.filter (fun x => !(x.2 == n)) }

/-- Model of `wipefs --all`: the LUKS header of device `d` is erased. -/
def wipeEffect (s : SysState) (d : String) : SysState :=
  { s with luks := s.luks.filter (fun x => !(x == d)) }

/-- External actions, recorded in the run trace. -/
inductive Action where
  | create (device key : String)
  | openC (device key name : String)
  | close (name : String)
  | addKey (device key new_key : String)
  | removeKey (device key : String)
  | wipe (device : String)
deriving DecidableEq

/-- Model of `CryptHandler.run_luks_remove` at the state level: query the open
name on the device, close it first when one resolves, then wipe. -/
def run_luks_remove_sys (s : SysState) (d : String) :
    SysState × List Action :=
  match nameByDevice s d with
  | some n => (wipeEffect (closeEffect s n) d, [Action.close n, Action.wipe d])
  | none => (wipeEffect s d, [Action.wipe d])

/-- Well-formedness of observable state: a device carrying an open
container mapping has a LUKS header (one cannot open a non-LUKS device,
and `run_luks_remove` closes before wiping). -/
def wfB (s : SysState) : Bool :=
  s.openL.all (fun x => s.luks.contains x.1)

namespace Conditions

/-- Model of `Conditions.luks_create`. -/
def luks_create (p : Params) (s : SysState) : Bool :=
  match p.device, p.key with
  | some d, some _ => p.state == some "present" && !(sysIsLuks s d)
  | _, _ => false

/-- Model of `Conditions.luks_open`: `.error` models `fail_json` (ABORT),
`.ok true` RUN, `.ok false` SKIP. -/
def luks_open (p : Params) (s : SysState) : Except String Bool :=
  match p.device, p.key with
  | some d, some _ =>
    if p.openFlag == false then .ok false
    else if p.state == some "absent" then
      .error "Contradiction in setup: LUKS set to be absent and open."
    else
      match nameByDevice s d with
      | some n =>
        if some n != p.name then
          .error ("LUKS container is already opened under different name "
                  ++ n ++ ".")
        else .ok false
      | none => .ok true
  | _, _ => .ok false

/-- Model of `Conditions.luks_close`: the local variable `luks_is_open` starts
unassigned (`none`); each query branch assigns it; returning `none`
models the NameError of returning it unassigned. -/
def luks_close_raw (p : Params) (s : SysState) : Option Bool :=
  if (p.name.isNone && p.device.isNone) || p.openFlag == true
      || p.state == some "absent" then
    some false
  else
    let v0 : Option Bool := none
    let v1 : Option Bool :=
      match p.device with
      | some d => some (nameByDevice s d).isSome
      | none => v0
    let v2 : Option Bool :=
      match p.name with
      | some n => some (deviceByName s n).isSome
      | none => v1
    v2

/-- Model of `Conditions.luks_add_key`. -/
def luks_add_key (p : Params) : Except String Bool :=
  if p.device.isNone || p.key.isNone || p.new_key.isNone then .ok false
  else if p.state == some "absent" then
    .error "Contradiction in setup: Asking to add a key to absent LUKS."
  else .ok true

/-- Model of `Conditions.luks_remove_key`. -/
def luks_remove_key (p : Params) : Except String Bool :=
  if p.device.isNone || p.remove_key.isNone then .ok false
  else if p.state == some "absent" then
    .error "Contradiction in setup: Asking to remove a key from absent LUKS."
  else .ok true

/-- Model of `Conditions.luks_remove`. -/
def luks_remove (p : Params) (s : SysState) : Bool :=
  match p.device with
  | some d => p.state == some "absent" && sysIsLuks s d
  | none => false

end Conditions

/-- Failure modes of a run: `fail_json` on the state validity check, a
predicate contradiction (ABORT), a tool failure (here: only the
`generate_luks_name` ValueError and the degenerate close-with-None call,
since actions are modelled on their success path), and the latent
NameError in `luks_close`. -/
inductive RError where
  | invalidState (s : String)
  | predAbort (msg : String)
  | toolError (msg : String)
  | nameError
deriving DecidableEq

/-- Accumulated run state: the `changed` flag, the reported `name`, the
observable system state, and the trace of actions performed so far. -/
structure RunSt where
  changed : Bool
  rname : Option String
  sys : SysState
  trace : List Action
deriving DecidableEq

def initSt (s : SysState) : RunSt :=
  { changed := false, rname := none, sys := s, trace := [] }

/-- run_module, luks create step. -/
def stepCreate (p : Params) (st : RunSt) : RunSt :=
  if Conditions.luks_create p st.sys then
    match p.device, p.key with
    | some d, some k =>
      { st with changed := true, sys := createEffect st.sys d,
                trace := st.trace ++ [Action.create d k] }
    | _, _ => st
  else st

/-- run_module, luks open step.  On RUN, the name is the declared one or
the generated `luks-<UUID>`; generation failure is a tool error. -/
def stepOpen (p : Params) (st : RunSt) : Except (RError × RunSt) RunSt :=
  match Conditions.luks_open p st.sys with
  | .error m => .error (.predAbort m, st)
  | .ok false => .ok st
  | .ok true =>
    match p.device, p.key with
    | some d, some k =>
      match p.name with
      | some n =>
        .ok { st with changed := true, rname := some n,
                      sys := openEffect st.sys d n,
                      trace := st.trace ++ [Action.openC d k n] }
      | none =>
        match generate_luks_name st.sys d with
        | none => .error (.toolError "Error while generating LUKS name", st)
        | some n =>
          .ok { st with changed := true, rname := some n,
                        sys := openEffect st.sys d n,
                        trace := st.trace ++ [Action.openC d k n] }
    | _, _ => .ok st

/-- run_module, luks close step.  The name passed to the close action is
re-derived from the device when one is given, else the declared name;
when the device query resolves nothing the source would pass None into
the command line, which cannot be run (tool error). -/
def stepClose (p : Params) (st : RunSt) : Except (RError × RunSt) RunSt :=
  match Conditions.luks_close_raw p st.sys with
  | none => .error (.nameError, st)
  | some false => .ok st
  | some true =>
    match p.device with
    | some d =>
      match nameByDevice st.sys d with
      | none => .error (.toolError "cryptsetup close with name None", st)
      | some n =>
        .ok { st with changed := true, sys := closeEffect st.sys n,
                      trace := st.trace ++ [Action.close n] }
    | none =>
      match p.name with
      | none => .error (.toolError "cryptsetup close with name None", st)
      | some n =>
        .ok { st with changed := true, sys := closeEffect st.sys n,
                      trace := st.trace ++ [Action.close n] }

/-- run_module, luks add key step. -/
def stepAddKey (p : Params) (st : RunSt) : Except (RError × RunSt) RunSt :=
  match Conditions.luks_add_key p with
  | .error m => .error (.predAbort m, st)
  | .ok false => .ok st
  | .ok true =>
    match p.device, p.key, p.new_key with
    | some d, some k, some nk =>
      .ok { st with changed := true, trace := st.trace ++ [Action.addKey d k nk] }
    | _, _, _ => .ok st

/-- run_module, luks remove key step. -/
def stepRemoveKey (p : Params) (st : RunSt) : Except (RError × RunSt) RunSt :=
  match Conditions.luks_remove_key p with
  | .error m => .error (.predAbort m, st)
  | .ok false => .ok st
  | .ok true =>
    match p.device, p.remove_key with
    | some d, some rk =>
      .ok { st with changed := true, trace := st.trace ++ [Action.removeKey d rk] }
    | _, _ => .ok st

/-- run_module, luks remove step. -/
def stepRemove (p : Params) (st : RunSt) : RunSt :=
  if Conditions.luks_remove p st.sys then
    match p.device with
    | some d =>
      let r := run_luks_remove_sys st.sys d
      { st with changed := true, sys := r.1, trace := st.trace ++ r.2 }
    | none => st
  else st

/-- The `state` parameter validity check at the top of run_module. -/
def validState (p : Params) : Bool :=
  p.state == none || p.state == some "present" || p.state == some "absent"

/-- Model of `run_module`: validity check, then the six predicate/action pairs in
the fixed order create, open, close, add-key, remove-key, remove.  An
error carries the run state at the moment of failure. -/
def runModule (p : Params) (s0 : SysState) : Except (RError × RunSt) RunSt :=
  if validState p = false then
    .error (.invalidState (p.state.getD "None"), initSt s0)
  else
    match stepOpen p (stepCreate p (initSt s0)) with
    | .error e => .error e
    | .ok st2 =>
      match stepClose p st2 with
      | .error e => .error e
      | .ok st3 =>
        match stepAddKey p st3 with
        | .error e => .error e
        | .ok st4 =>
          match stepRemoveKey p st4 with
          | .error e => .error e
          | .ok st5 => .ok (stepRemove p st5)

end CryptDev

namespace CryptDev

/-- C7: the read-only queries never raise for a not-found outcome:
`get_container_name_by_device` returns the absence marker on a zero-exit
output with no name match and errors exactly when the tool exits
non-zero; `get_container_device_by_name` returns the absence marker
whenever the tool exits non-zero; `is_luks` is a total boolean, true iff
the tool exited zero. -/
theorem queries_absence_contract :
    (∀ (device : String) (result : CommandResult), result.code = 0 →
      luksNameSearch result.stdout = none →
      CryptHandler.get_container_name_by_device device result = .ok none) ∧
    (∀ (device : String) (result : CommandResult),
      (∃ e, CryptHandler.get_container_name_by_device device result = .error e)
        ↔ result.code ≠ 0) ∧
    (∀ (name : String) (result : CommandResult), result.code ≠ 0 →
      CryptHandler.get_container_device_by_name name result = .ok none) ∧
    (∀ result : CommandResult, CryptHandler.is_luks result = true ↔ result.code = 0) := by
  refine ⟨?_, ?_, ?_, ?_⟩
  · intro device result h0 hm
    simp [CryptHandler.get_container_name_by_device, h0, hm]
  · intro device result
    constructor
    · rintro ⟨e, he⟩ h0
      simp [CryptHandler.get_container_name_by_device, h0] at he
    · intro h0
      refine ⟨["Error while obtaining LUKS name for ", device, ": ", result.stderr], ?_⟩
      simp [CryptHandler.get_container_name_by_device, h0]
  · intro name result h0
    simp [CryptHandler.get_container_device_by_name, h0]
  · intro result
    simp [CryptHandler.is_luks]

theorem queries_absence_contract_witness :
    CryptHandler.get_container_name_by_device "/dev/loop0" ⟨0, "disk sda", ""⟩
      = .ok none ∧
    CryptHandler.get_container_device_by_name "foo" ⟨1, "", "boom"⟩ = .ok none := by
  constructor
  · exact queries_absence_contract.1 "/dev/loop0" ⟨0, "disk sda", ""⟩ rfl (by decide)
  · exact queries_absence_contract.2.2.1 "foo" ⟨1, "", "boom"⟩ (by decide)

/-- C6 counterexample: `run_luks_close` does fail on a non-zero exit, but
its failure message carries only the container name — the captured
stderr text (here "boom") appears nowhere in the message. -/
theorem run_luks_close_msg_lacks_stderr :
    CryptHandler.run_luks_close "foo" ⟨1, "", "boom"⟩ =
      .error ["Error while closing LUKS container ", "foo"] ∧
    "boom" ∉ ["Error while closing LUKS container ", "foo"] := by
  refine ⟨rfl, by decide⟩

/-- C6 amended: each of the six imperative operations raises iff the
respective tool exits non-zero (for `run_luks_remove`, the wipe step,
provided its optional close step succeeded); the failure messages of
create, open, remove, add-key and remove-key carry both the device and
the captured stderr, while the failure message of `run_luks_close`
carries the container name (but, per the counterexample, not stderr). -/
theorem actions_fail_iff_nonzero :
    (∀ (device : String) (r : CommandResult),
      (CryptHandler.run_luks_create device r = .ok () ↔ r.code = 0) ∧
      (r.code ≠ 0 → ∃ m, CryptHandler.run_luks_create device r = .error m ∧
        device ∈ m ∧ r.stderr ∈ m)) ∧
    (∀ (device : String) (r : CommandResult),
      (CryptHandler.run_luks_open device r = .ok () ↔ r.code = 0) ∧
      (r.code ≠ 0 → ∃ m, CryptHandler.run_luks_open device r = .error m ∧
        device ∈ m ∧ r.stderr ∈ m)) ∧
    (∀ (name : String) (r : CommandResult),
      (CryptHandler.run_luks_close name r = .ok () ↔ r.code = 0) ∧
      (r.code ≠ 0 → ∃ m, CryptHandler.run_luks_close name r = .error m ∧
        name ∈ m)) ∧
    (∀ (device : String) (nameRes : Option String) (cr wr : CommandResult),
      nameRes = none ∨ cr.code = 0 →
      ((CryptHandler.run_luks_remove device nameRes cr wr = .ok () ↔ wr.code = 0) ∧
       (wr.code ≠ 0 → ∃ m, CryptHandler.run_luks_remove device nameRes cr wr = .error m ∧
         device ∈ m ∧ wr.stderr ∈ m))) ∧
    (∀ (device : String) (r : CommandResult),
      (CryptHandler.run_luks_add_key device r = .ok () ↔ r.code = 0) ∧
      (r.code ≠ 0 → ∃ m, CryptHandler.run_luks_add_key device r = .error m ∧
        device ∈ m ∧ r.stderr ∈ m)) ∧
    (∀ (device : String) (r : CommandResult),
      (CryptHandler.run_luks_remove_key device r = .ok () ↔ r.code = 0) ∧
      (r.code ≠ 0 → ∃ m, CryptHandler.run_luks_remove_key device r = .error m ∧
        device ∈ m ∧ r.stderr ∈ m)) := by
  refine ⟨?_, ?_, ?_, ?_, ?_, ?_⟩
  · intro device r
    constructor
    · constructor
      · intro h
        by_contra h0
        simp [CryptHandler.run_luks_create, h0] at h
      · intro h0
        simp [CryptHandler.run_luks_create, h0]
    · intro h0
      refine ⟨["Error while creating LUKS on ", device, ": ", r.stderr], ?_, ?_, ?_⟩
      · simp [CryptHandler.run_luks_create, h0]
      · simp
      · simp
  · intro device r
    constructor
    · constructor
      · intro h
        by_contra h0
        simp [CryptHandler.run_luks_open, h0] at h
      · intro h0
        simp [CryptHandler.run_luks_open, h0]
    · intro h0
      refine ⟨["Error while opening LUKS container on ", device, ": ", r.stderr], ?_, ?_, ?_⟩
      · simp [CryptHandler.run_luks_open, h0]
      · simp
      · simp
  · intro name r
    constructor
    · constructor
      · intro h
        by_contra h0
        simp [CryptHandler.run_luks_close, h0] at h
      · intro h0
        simp [CryptHandler.run_luks_close, h0]
    · intro h0
      refine ⟨["Error while closing LUKS container ", name], ?_, ?_⟩
      · simp [CryptHandler.run_luks_close, h0]
      · simp
  · rintro device nameRes cr wr (hn | hc)
    · subst hn
      constructor
      · constructor
        · intro h
          by_contra h0
          simp [CryptHandler.run_luks_remove, h0] at h
        · intro h0
          simp [CryptHandler.run_luks_remove, h0]
      · intro h0
        refine ⟨["Error while wiping luks container ", device, ": ", wr.stderr], ?_, ?_, ?_⟩
        · simp [CryptHandler.run_luks_remove, h0]
        · simp
        · simp
    · cases nameRes with
      | none =>
        constructor
        · constructor
          · intro h
            by_contra h0
            simp [CryptHandler.run_luks_remove, h0] at h
          · intro h0
            simp [CryptHandler.run_luks_remove, h0]
        · intro h0
          refine ⟨["Error while wiping luks container ", device, ": ", wr.stderr], ?_, ?_, ?_⟩
          · simp [CryptHandler.run_luks_remove, h0]
          · simp
          · simp
      | some n =>
        constructor
        · constructor
          · intro h
            by_contra h0
            simp [CryptHandler.run_luks_remove, CryptHandler.run_luks_close, hc, h0] at h
          · intro h0
            simp [CryptHandler.run_luks_remove, CryptHandler.run_luks_close, hc, h0]
        · intro h0
          refine ⟨["Error while wiping luks container ", device, ": ", wr.stderr], ?_, ?_, ?_⟩
          · simp [CryptHandler.run_luks_remove, CryptHandler.run_luks_close, hc, h0]
          · simp
          · simp
  · intro device r
    constructor
    · constructor
      · intro h
        by_contra h0
        simp [CryptHandler.run_luks_add_key, h0] at h
      · intro h0
        simp [CryptHandler.run_luks_add_key, h0]
    · intro h0
      refine ⟨["Error while adding new LUKS key to ", device, ": ", r.stderr], ?_, ?_, ?_⟩
      · simp [CryptHandler.run_luks_add_key, h0]
      · simp
      · simp
  · intro device r
    constructor
    · constructor
      · intro h
        by_contra h0
        simp [CryptHandler.run_luks_remove_key, h0] at h
      · intro h0
        simp [CryptHandler.run_luks_remove_key, h0]
    · intro h0
      refine ⟨["Error while removing LUKS key from ", device, ": ", r.stderr], ?_, ?_, ?_⟩
      · simp [CryptHandler.run_luks_remove_key, h0]
      · simp
      · simp

theorem actions_fail_iff_nonzero_witness :
    (∃ m, CryptHandler.run_luks_create "/dev/loop0" ⟨1, "", "bad"⟩ = .error m ∧
      "/dev/loop0" ∈ m ∧ "bad" ∈ m) ∧
    (CryptHandler.run_luks_remove "/dev/loop0" none ⟨0, "", ""⟩ ⟨0, "", ""⟩ = .ok ()
      ↔ (0 : Int) = 0) := by
  constructor
  · exact (actions_fail_iff_nonzero.1 "/dev/loop0" ⟨1, "", "bad"⟩).2 (by decide)
  · exact (actions_fail_iff_nonzero.2.2.2.1 "/dev/loop0" none ⟨0, "", ""⟩ ⟨0, "", ""⟩
      (Or.inl rfl)).1

end CryptDev

namespace CryptDev

/-- C1: with device, key supplied, open requested and state present,
`Conditions.luks_open` SKIPs when the live name-by-device query returns
exactly the declared name, ABORTs when it returns a different name
(including a live name against a declared `none`), and RUNs when the
query resolves nothing. -/
theorem luks_open_decision (p : Params) (s : SysState) (d k : String)
    (hd : p.device = some d) (hk : p.key = some k)
    (ho : p.openFlag = true) (hs : p.state = some "present") :
    (nameByDevice s d = none → Conditions.luks_open p s = .ok true) ∧
    (∀ n, nameByDevice s d = some n →
      (p.name = some n → Conditions.luks_open p s = .ok false) ∧
      (p.name ≠ some n → ∃ m, Conditions.luks_open p s = .error m)) := by
  constructor
  · intro h
    simp [Conditions.luks_open, hd, hk, ho, hs, h]
  · intro n hn
    constructor
    · intro he
      simp [Conditions.luks_open, hd, hk, ho, hs, hn, he]
    · intro hne
      refine ⟨"LUKS container is already opened under different name " ++ n ++ ".", ?_⟩
      have hb : (some n != p.name) = true := by
        simp [bne_iff_ne]
        exact fun hcontra => hne hcontra.symm
      simp [Conditions.luks_open, hd, hk, ho, hs, hn, hb]

theorem luks_open_decision_witness :
    ∃ m, Conditions.luks_open
      { device := some "/dev/loop0", state := some "present", openFlag := true,
        name := some "foo", key := some "/k", new_key := none, remove_key := none }
      ⟨["/dev/loop0"], [("/dev/loop0", "bar")], []⟩ = .error m := by
  have h := luks_open_decision
    { device := some "/dev/loop0", state := some "present", openFlag := true,
      name := some "foo", key := some "/k", new_key := none, remove_key := none }
    ⟨["/dev/loop0"], [("/dev/loop0", "bar")], []⟩ "/dev/loop0" "/k" rfl rfl rfl rfl
  exact (h.2 "bar" (by decide)).2 (by decide)

/-- C3 counterexample: with both device and name supplied, open false and
state present, the name-by-device query resolves a live mapping (the
container is open on the device under the name "bar"), yet
`Conditions.luks_close` decides SKIP because the later device-by-name
query (for the unrelated declared name "foo") overwrites the flag. -/
theorem luks_close_overwrite_cex :
    (nameByDevice ⟨["/dev/loop0"], [("/dev/loop0", "bar")], []⟩ "/dev/loop0").isSome
      = true ∧
    deviceByName ⟨["/dev/loop0"], [("/dev/loop0", "bar")], []⟩ "foo" = none ∧
    Conditions.luks_close_raw
      { device := some "/dev/loop0", state := some "present", openFlag := false,
        name := some "foo", key := none, new_key := none, remove_key := none }
      ⟨["/dev/loop0"], [("/dev/loop0", "bar")], []⟩ = some false := by
  refine ⟨by decide, by decide, by decide⟩

/-- C3 amended: under the should-close preconditions (open explicitly
false, state present), the decision is made by the last issued query
alone: when a name is supplied, RUN iff device-by-name resolves
(overwriting any device query); when only a device is supplied, RUN iff
name-by-device resolves; with neither, SKIP. -/
theorem luks_close_decision (p : Params) (s : SysState)
    (ho : p.openFlag = false) (hs : p.state = some "present") :
    Conditions.luks_close_raw p s = some (
      match p.name with
      | some n => (deviceByName s n).isSome
      | none =>
        match p.device with
        | some d => (nameByDevice s d).isSome
        | none => false) := by
  cases hpn : p.name <;> cases hpd : p.device <;>
    simp [Conditions.luks_close_raw, ho, hs, hpn, hpd]

theorem luks_close_decision_witness :
    Conditions.luks_close_raw
      { device := some "/dev/loop0", state := some "present", openFlag := false,
        name := some "foo", key := none, new_key := none, remove_key := none }
      ⟨["/dev/loop0"], [("/dev/loop0", "bar")], []⟩ =
      some (deviceByName ⟨["/dev/loop0"], [("/dev/loop0", "bar")], []⟩ "foo").isSome := by
  exact luks_close_decision
    { device := some "/dev/loop0", state := some "present", openFlag := false,
      name := some "foo", key := none, new_key := none, remove_key := none }
    ⟨["/dev/loop0"], [("/dev/loop0", "bar")], []⟩ rfl rfl

/-- C5: `run_luks_remove` on a device whose container is currently open
closes it by the resolved name and then wipes, never wiping alone; on a
device with no open container it wipes only. -/
theorem run_luks_remove_close_then_wipe (s : SysState) (d : String) :
    (∀ n, nameByDevice s d = some n →
      (run_luks_remove_sys s d).2 = [Action.close n, Action.wipe d]) ∧
    (nameByDevice s d = none →
      (run_luks_remove_sys s d).2 = [Action.wipe d]) ∧
    ((nameByDevice s d).isSome = true →
      (run_luks_remove_sys s d).2 ≠ [Action.wipe d]) := by
  refine ⟨?_, ?_, ?_⟩
  · intro n hn
    simp [run_luks_remove_sys, hn]
  · intro hn
    simp [run_luks_remove_sys, hn]
  · intro hn
    rcases ho : nameByDevice s d with _ | n
    · rw [ho] at hn; simp at hn
    · simp [run_luks_remove_sys, ho]

theorem run_luks_remove_close_then_wipe_witness :
    (run_luks_remove_sys ⟨["/dev/loop0"], [("/dev/loop0", "bar")], []⟩ "/dev/loop0").2
      = [Action.close "bar", Action.wipe "/dev/loop0"] := by
  exact (run_luks_remove_close_then_wipe
    ⟨["/dev/loop0"], [("/dev/loop0", "bar")], []⟩ "/dev/loop0").1 "bar" (by decide)

/-- C8: `luks_add_key` RUNs iff device, key and new_key are all supplied
and state is not absent, ABORTs iff all three are supplied and state is
absent, and SKIPs (without aborting) when a required parameter is
missing; `luks_remove_key` behaves likewise over device and remove_key. -/
theorem key_predicates_decision (p : Params) :
    (Conditions.luks_add_key p = .ok true ↔
      (p.device.isSome = true ∧ p.key.isSome = true ∧ p.new_key.isSome = true ∧
        p.state ≠ some "absent")) ∧
    ((∃ m, Conditions.luks_add_key p = .error m) ↔
      (p.device.isSome = true ∧ p.key.isSome = true ∧ p.new_key.isSome = true ∧
        p.state = some "absent")) ∧
    (¬(p.device.isSome = true ∧ p.key.isSome = true ∧ p.new_key.isSome = true) →
      Conditions.luks_add_key p = .ok false) ∧
    (Conditions.luks_remove_key p = .ok true ↔
      (p.device.isSome = true ∧ p.remove_key.isSome = true ∧
        p.state ≠ some "absent")) ∧
    ((∃ m, Conditions.luks_remove_key p = .error m) ↔
      (p.device.isSome = true ∧ p.remove_key.isSome = true ∧
        p.state = some "absent")) ∧
    (¬(p.device.isSome = true ∧ p.remove_key.isSome = true) →
      Conditions.luks_remove_key p = .ok false) := by
  by_cases habs : p.state = some "absent" <;>
    cases hd : p.device <;> cases hk : p.key <;> cases hnk : p.new_key <;>
      cases hrk : p.remove_key <;>
        simp [Conditions.luks_add_key, Conditions.luks_remove_key,
              hd, hk, hnk, hrk, habs]

theorem key_predicates_decision_witness :
    ∃ m, Conditions.luks_add_key
      { device := some "/dev/loop0", state := some "absent", openFlag := false,
        name := none, key := some "/k", new_key := some "/k2", remove_key := none }
      = .error m := by
  exact (key_predicates_decision
    { device := some "/dev/loop0", state := some "absent", openFlag := false,
      name := none, key := some "/k", new_key := some "/k2", remove_key := none }).2.1.mpr
    ⟨rfl, rfl, rfl, rfl⟩

/-- C10: under the should-close precondition (at least one of device and
name supplied, open not true, state not absent), the `luks_is_open` local
of `Conditions.luks_close` is always assigned before being returned: the
predicate is total there and the NameError branch is unreachable. -/
theorem luks_close_total (p : Params) (s : SysState)
    (hsup : p.device.isSome = true ∨ p.name.isSome = true)
    (ho : p.openFlag ≠ true) (hs : p.state ≠ some "absent") :
    (Conditions.luks_close_raw p s).isSome = true := by
  cases hpn : p.name <;> cases hpd : p.device <;>
    simp_all [Conditions.luks_close_raw]

theorem luks_close_total_witness :
    (Conditions.luks_close_raw
      { device := some "/dev/loop0", state := some "present", openFlag := false,
        name := none, key := none, new_key := none, remove_key := none }
      ⟨[], [], []⟩).isSome = true := by
  exact luks_close_total
    { device := some "/dev/loop0", state := some "present", openFlag := false,
      name := none, key := none, new_key := none, remove_key := none }
    ⟨[], [], []⟩ (Or.inl rfl) (by decide) (by decide)

end CryptDev

namespace CryptDev

/-- Declared Intent of an add-key reconciliation (used to refute run-twice
idempotence). -/
def intentAddKey : Params :=
  { device := some "/dev/loop0", state := some "present", openFlag := false,
    name := none, key := some "/k", new_key := some "/k2", remove_key := none }

/-- A device that already carries a LUKS header, nothing open. -/
def sysLuksHeader : SysState := ⟨["/dev/loop0"], [], []⟩

/-- Declared Intent requesting open with auto-generated name. -/
def intentOpenAuto : Params :=
  { device := some "/dev/loop0", state := some "present", openFlag := true,
    name := none, key := some "/k", new_key := none, remove_key := none }

/-- A blank device whose UUID is "U". -/
def sysBlankU : SysState := ⟨[], [], [("/dev/loop0", "U")]⟩

/-- C2 (refuting run-twice idempotence): (i) with an add-key intent, the
first run succeeds with changed=true and leaves the observable state
unchanged, and the second identical run again RUNs the add-key predicate
and reports changed=true instead of all-SKIP/changed=false; (ii) with an
open intent and no declared name, the first run creates and opens the
container under the generated name, and the second identical run ABORTS
in the open predicate instead of skipping. -/
theorem second_run_not_idempotent :
    (∃ st1 st2 : RunSt,
      runModule intentAddKey sysLuksHeader = .ok st1 ∧ st1.changed = true ∧
      st1.sys = sysLuksHeader ∧
      runModule intentAddKey st1.sys = .ok st2 ∧ st2.changed = true ∧
      Conditions.luks_add_key intentAddKey = .ok true) ∧
    (∃ st1 : RunSt, ∃ m : String, ∃ stf : RunSt,
      runModule intentOpenAuto sysBlankU = .ok st1 ∧ st1.changed = true ∧
      runModule intentOpenAuto st1.sys = .error (RError.predAbort m, stf)) := by
  constructor
  · refine ⟨{ changed := true, rname := none, sys := sysLuksHeader,
              trace := [Action.addKey "/dev/loop0" "/k" "/k2"] },
            { changed := true, rname := none, sys := sysLuksHeader,
              trace := [Action.addKey "/dev/loop0" "/k" "/k2"] },
            ?_, rfl, rfl, ?_, rfl, rfl⟩
    · rfl
    · rfl
  · refine ⟨{ changed := true, rname := some "luks-U",
              sys := ⟨["/dev/loop0"], [("/dev/loop0", "luks-U")], [("/dev/loop0", "U")]⟩,
              trace := [Action.create "/dev/loop0" "/k",
                        Action.openC "/dev/loop0" "/k" "luks-U"] },
            "LUKS container is already opened under different name luks-U.",
            { changed := false, rname := none,
              sys := ⟨["/dev/loop0"], [("/dev/loop0", "luks-U")], [("/dev/loop0", "U")]⟩,
              trace := [] },
            ?_, rfl, ?_⟩
    · rfl
    · rfl

end CryptDev

namespace CryptDev

/-- Recognize an open action in a run trace. -/
def isOpenAct : Action → Bool
  | .openC _ _ _ => true
  | _ => false

theorem remove_sys_no_open_act (s : SysState) (d : String) :
    ((run_luks_remove_sys s d).2.any isOpenAct) = false := by
  rcases h : nameByDevice s d with _ | n <;>
    simp [run_luks_remove_sys, h, isOpenAct]

theorem pres_create (p : Params) (st : RunSt)
    (h : st.rname.isSome = st.trace.any isOpenAct) :
    (stepCreate p st).rname.isSome = (stepCreate p st).trace.any isOpenAct := by
  unfold stepCreate
  split
  · cases hd : p.device <;> cases hk : p.key <;> simp [h, isOpenAct]
  · exact h

theorem pres_open (p : Params) {st st' : RunSt}
    (hstep : stepOpen p st = .ok st')
    (h : st.rname.isSome = st.trace.any isOpenAct) :
    st'.rname.isSome = st'.trace.any isOpenAct := by
  unfold stepOpen at hstep
  split at hstep
  · simp at hstep
  · injection hstep with h2; subst h2; exact h
  · split at hstep
    · split at hstep
      · injection hstep with h2; subst h2; simp [isOpenAct]
      · split at hstep
        · simp at hstep
        · injection hstep with h2; subst h2; simp [isOpenAct]
    · injection hstep with h2; subst h2; exact h

theorem pres_close (p : Params) {st st' : RunSt}
    (hstep : stepClose p st = .ok st')
    (h : st.rname.isSome = st.trace.any isOpenAct) :
    st'.rname.isSome = st'.trace.any isOpenAct := by
  unfold stepClose at hstep
  split at hstep
  · simp at hstep
  · injection hstep with h2; subst h2; exact h
  · split at hstep
    · split at hstep
      · simp at hstep
      · injection hstep with h2; subst h2; simp [isOpenAct, h]
    · split at hstep
      · simp at hstep
      · injection hstep with h2; subst h2; simp [isOpenAct, h]

theorem pres_addKey (p : Params) {st st' : RunSt}
    (hstep : stepAddKey p st = .ok st')
    (h : st.rname.isSome = st.trace.any isOpenAct) :
    st'.rname.isSome = st'.trace.any isOpenAct := by
  unfold stepAddKey at hstep
  split at hstep
  · simp at hstep
  · injection hstep with h2; subst h2; exact h
  · split at hstep
    · injection hstep with h2; subst h2; simp [isOpenAct, h]
    · injection hstep with h2; subst h2; exact h

theorem pres_removeKey (p : Params) {st st' : RunSt}
    (hstep : stepRemoveKey p st = .ok st')
    (h : st.rname.isSome = st.trace.any isOpenAct) :
    st'.rname.isSome = st'.trace.any isOpenAct := by
  unfold stepRemoveKey at hstep
  split at hstep
  · simp at hstep
  · injection hstep with h2; subst h2; exact h
  · split at hstep
    · injection hstep with h2; subst h2; simp [isOpenAct, h]
    · injection hstep with h2; subst h2; exact h

theorem pres_remove (p : Params) (st : RunSt)
    (h : st.rname.isSome = st.trace.any isOpenAct) :
    (stepRemove p st).rname.isSome = (stepRemove p st).trace.any isOpenAct := by
  unfold stepRemove
  split
  · cases hd : p.device
    · exact h
    · simp [remove_sys_no_open_act, h]
  · exact h

/-- C9: in every successful run, the reported `name` is non-absent iff an
open action was executed (equivalently, the open predicate decided RUN);
in particular a run whose open predicate SKIPs reports `name` as absent. -/
theorem name_reported_iff_open_ran (p : Params) (s0 : SysState) (st : RunSt)
    (h : runModule p s0 = .ok st) :
    st.rname.isSome = st.trace.any isOpenAct := by
  unfold runModule at h
  split at h
  · simp at h
  · split at h
    · simp at h
    · rename_i st2 hopen
      split at h
      · simp at h
      · rename_i st3 hclose
        split at h
        · simp at h
        · rename_i st4 haddk
          split at h
          · simp at h
          · rename_i st5 hremk
            injection h with h6
            subst h6
            exact pres_remove p st5 (pres_removeKey p hremk (pres_addKey p haddk
              (pres_close p hclose (pres_open p hopen (pres_create p (initSt s0) rfl)))))

theorem name_reported_iff_open_ran_witness :
    (initSt ⟨[], [], []⟩).rname.isSome = (initSt ⟨[], [], []⟩).trace.any isOpenAct :=
  name_reported_iff_open_ran
    { device := none, state := some "present", openFlag := false,
      name := none, key := none, new_key := none, remove_key := none }
    ⟨[], [], []⟩ (initSt ⟨[], [], []⟩) rfl

end CryptDev

namespace CryptDev

theorem wf_name_resolves_luks {s : SysState} {d n : String}
    (hwf : wfB s = true) (h : nameByDevice s d = some n) :
    sysIsLuks s d = true := by
  unfold nameByDevice at h
  rcases Option.map_eq_some'.mp h with ⟨x, hfind, hx⟩
  have hmem := List.mem_of_find?_eq_some hfind
  have hpred := List.find?_some hfind
  have hxd : x.1 = d := by simpa using hpred
  unfold wfB at hwf
  rw [List.all_eq_true] at hwf
  have hc := hwf x hmem
  unfold sysIsLuks
  rw [← hxd]
  simpa using hc

theorem luks_create_false_of_not_present {p : Params} {s : SysState}
    (hs : p.state ≠ some "present") : Conditions.luks_create p s = false := by
  cases hd : p.device <;> cases hk : p.key <;>
    simp [Conditions.luks_create, hd, hk, hs]

theorem stepCreate_skip {p : Params} {st : RunSt}
    (h : Conditions.luks_create p st.sys = false) : stepCreate p st = st := by
  simp [stepCreate, h]

theorem stepOpen_error_st {p : Params} {st : RunSt} {e : RError} {st' : RunSt}
    (h : stepOpen p st = .error (e, st')) : st' = st := by
  unfold stepOpen at h
  split at h
  · simp only [Except.error.injEq, Prod.mk.injEq] at h
    exact h.2.symm
  · simp at h
  · split at h
    · split at h
      · simp at h
      · split at h
        · simp only [Except.error.injEq, Prod.mk.injEq] at h
          exact h.2.symm
        · simp at h
    · simp at h

theorem stepClose_error_kind {p : Params} {st : RunSt} {e : RError} {st' : RunSt}
    (h : stepClose p st = .error (e, st')) :
    e = RError.nameError ∨ e = RError.toolError "cryptsetup close with name None" := by
  unfold stepClose at h
  split at h
  · simp only [Except.error.injEq, Prod.mk.injEq] at h
    exact Or.inl h.1.symm
  · simp at h
  · split at h
    · split at h
      · simp only [Except.error.injEq, Prod.mk.injEq] at h
        exact Or.inr h.1.symm
      · simp at h
    · split at h
      · simp only [Except.error.injEq, Prod.mk.injEq] at h
        exact Or.inr h.1.symm
      · simp at h

theorem luks_add_key_error_absent {p : Params} {m : String}
    (h : Conditions.luks_add_key p = .error m) : p.state = some "absent" := by
  unfold Conditions.luks_add_key at h
  split at h
  · simp at h
  · split at h
    · rename_i hcond hstate
      simpa using hstate
    · simp at h

theorem luks_remove_key_error_absent {p : Params} {m : String}
    (h : Conditions.luks_remove_key p = .error m) : p.state = some "absent" := by
  unfold Conditions.luks_remove_key at h
  split at h
  · simp at h
  · split at h
    · rename_i hcond hstate
      simpa using hstate
    · simp at h

theorem stepAddKey_error {p : Params} {st : RunSt} {e : RError} {st' : RunSt}
    (h : stepAddKey p st = .error (e, st')) :
    st' = st ∧ p.state = some "absent" := by
  unfold stepAddKey at h
  split at h
  · rename_i m heq
    simp only [Except.error.injEq, Prod.mk.injEq] at h
    exact ⟨h.2.symm, luks_add_key_error_absent heq⟩
  · simp at h
  · split at h <;> simp at h

theorem stepRemoveKey_error {p : Params} {st : RunSt} {e : RError} {st' : RunSt}
    (h : stepRemoveKey p st = .error (e, st')) :
    st' = st ∧ p.state = some "absent" := by
  unfold stepRemoveKey at h
  split at h
  · rename_i m heq
    simp only [Except.error.injEq, Prod.mk.injEq] at h
    exact ⟨h.2.symm, luks_remove_key_error_absent heq⟩
  · simp at h
  · split at h <;> simp at h

theorem luks_open_no_run_absent {p : Params} {s : SysState}
    (habs : p.state = some "absent") : Conditions.luks_open p s ≠ .ok true := by
  unfold Conditions.luks_open
  cases hd : p.device <;> cases hk : p.key <;> simp [habs]
  split <;> simp

theorem stepOpen_ok_absent {p : Params} {st st' : RunSt}
    (habs : p.state = some "absent") (h : stepOpen p st = .ok st') : st' = st := by
  unfold stepOpen at h
  split at h
  · simp at h
  · simp only [Except.ok.injEq] at h
    exact h.symm
  · rename_i heq
    exact absurd heq (luks_open_no_run_absent habs)

theorem luks_close_raw_absent {p : Params} {s : SysState}
    (habs : p.state = some "absent") :
    Conditions.luks_close_raw p s = some false := by
  simp [Conditions.luks_close_raw, habs]

theorem stepClose_ok_absent {p : Params} {st st' : RunSt}
    (habs : p.state = some "absent") (h : stepClose p st = .ok st') : st' = st := by
  unfold stepClose at h
  rw [luks_close_raw_absent habs] at h
  simp only [Except.ok.injEq] at h
  exact h.symm

theorem luks_add_key_no_run_absent {p : Params}
    (habs : p.state = some "absent") : Conditions.luks_add_key p ≠ .ok true := by
  unfold Conditions.luks_add_key
  split
  · simp
  · simp [habs]

theorem stepAddKey_ok_absent {p : Params} {st st' : RunSt}
    (habs : p.state = some "absent") (h : stepAddKey p st = .ok st') : st' = st := by
  unfold stepAddKey at h
  split at h
  · simp at h
  · simp only [Except.ok.injEq] at h
    exact h.symm
  · rename_i heq
    exact absurd heq (luks_add_key_no_run_absent habs)

theorem open_abort_create_skipped {p : Params} {st : RunSt} {m : String} {st' : RunSt}
    (hwf : wfB st.sys = true)
    (h : stepOpen p (stepCreate p st) = .error (RError.predAbort m, st')) :
    stepCreate p st = st := by
  by_cases hc : Conditions.luks_create p st.sys = true
  · exfalso
    rcases hd : p.device with _ | d
    · simp [Conditions.luks_create, hd] at hc
    rcases hk : p.key with _ | k
    · simp [Conditions.luks_create, hd, hk] at hc
    simp only [Conditions.luks_create, hd, hk, Bool.and_eq_true, beq_iff_eq,
      Bool.not_eq_eq_eq_not, Bool.not_true] at hc
    obtain ⟨hps, hnl⟩ := hc
    have hcval : Conditions.luks_create p st.sys = true := by
      simp [Conditions.luks_create, hd, hk, hps, hnl]
    have hstep : stepCreate p st =
        { st with changed := true, sys := createEffect st.sys d,
                  trace := st.trace ++ [Action.create d k] } := by
      simp [stepCreate, hcval, hd, hk]
    rw [hstep] at h
    unfold stepOpen at h
    split at h
    · rename_i m2 heq
      rcases hnb : nameByDevice st.sys d with _ | n
      · have hnb' : nameByDevice (createEffect st.sys d) d = none := hnb
        simp only [Conditions.luks_open, hd, hk, hps, hnb'] at heq
        split at heq <;> simp at heq
      · exact absurd (wf_name_resolves_luks hwf hnb) (by simp [hnl])
    · simp at h
    · split at h
      · split at h
        · simp at h
        · split at h <;> simp at h
      · simp at h
  · simp only [Bool.not_eq_true] at hc
    exact stepCreate_skip hc

end CryptDev

namespace CryptDev

/-- C4: in every reconciliation run over a well-formed observable state,
if some predicate decides ABORT (a contradiction is raised), then no
side-effecting action has been executed in that run: the trace at the
moment of the abort is empty. -/
theorem abort_before_any_action (p : Params) (s0 : SysState) (m : String) (st : RunSt)
    (hwf : wfB s0 = true)
    (h : runModule p s0 = .error (RError.predAbort m, st)) :
    st.trace = [] := by
  unfold runModule at h
  split at h
  · simp at h
  · split at h
    · rename_i e heq
      simp only [Except.error.injEq] at h
      rw [h] at heq
      have h1 : st = stepCreate p (initSt s0) := stepOpen_error_st heq
      have h2 : stepCreate p (initSt s0) = initSt s0 :=
        open_abort_create_skipped hwf heq
      rw [h1, h2]
      rfl
    · rename_i st2 hopen
      split at h
      · rename_i e heq
        simp only [Except.error.injEq] at h
        rw [h] at heq
        rcases stepClose_error_kind heq with h' | h' <;> simp at h'
      · rename_i st3 hclose
        split at h
        · rename_i e heq
          simp only [Except.error.injEq] at h
          rw [h] at heq
          obtain ⟨hst, habs⟩ := stepAddKey_error heq
          have hc1 : stepCreate p (initSt s0) = initSt s0 :=
            stepCreate_skip (luks_create_false_of_not_present
              (by rw [habs]; decide))
          rw [hc1] at hopen
          have h2 : st2 = initSt s0 := stepOpen_ok_absent habs hopen
          rw [h2] at hclose
          have h3 : st3 = initSt s0 := stepClose_ok_absent habs hclose
          rw [hst, h3]
          rfl
        · rename_i st4 haddk
          split at h
          · rename_i e heq
            simp only [Except.error.injEq] at h
            rw [h] at heq
            obtain ⟨hst, habs⟩ := stepRemoveKey_error heq
            have hc1 : stepCreate p (initSt s0) = initSt s0 :=
              stepCreate_skip (luks_create_false_of_not_present
                (by rw [habs]; decide))
            rw [hc1] at hopen
            have h2 : st2 = initSt s0 := stepOpen_ok_absent habs hopen
            rw [h2] at hclose
            have h3 : st3 = initSt s0 := stepClose_ok_absent habs hclose
            rw [h3] at haddk
            have h4 : st4 = initSt s0 := stepAddKey_ok_absent habs haddk
            rw [hst, h4]
            rfl
          · simp at h

theorem abort_before_any_action_witness :
    (initSt (⟨[], [], []⟩ : SysState)).trace = [] :=
  abort_before_any_action
    { device := some "/dev/loop0", state := some "absent", openFlag := true,
      name := none, key := some "/k", new_key := none, remove_key := none }
    ⟨[], [], []⟩
    "Contradiction in setup: LUKS set to be absent and open."
    (initSt ⟨[], [], []⟩) (by decide) (by rfl)

end CryptDev
